import Mathlib

/-!
Shallow embedding of the APIBridge repository (Navin3d/APIBridge).

Embedded sources:
- src/tools_generator/agent.py : the shared `state_data` dictionary, the three
  setters, `validate_state`, `create_agent` and `write_code_to_tool`.
- src/gcp/server.py : the demo payment endpoints `initiate_payment` and
  `get_payment_status` backed by the in-memory `payments_store`.

Conventions: the Python dictionary `state_data` becomes a record `AgentState`;
the optional "agent" key becomes an `Option` field; fallible operations return
`Except`; the nondeterministic inputs of the HTTP layer (uuid4, utcnow) are
passed as explicit string parameters.
-/

namespace ToolsGenerator

/-- Whitespace characters stripped by the Python `str.strip()` method:
space, tab, newline, carriage return, vertical tab and form feed. -/
def isPyWhitespace (c : Char) : Bool :=
  c = ' ' || c = '\t' || c = '\n' || c = '\r' || c = '\x0b' || c = '\x0c'

/-- Embedding of the Python expression `s.strip()` : drop leading and trailing
whitespace characters. -/
def pyStrip (s : String) : String :=
  ⟨((s.data.dropWhile isPyWhitespace).reverse.dropWhile isPyWhitespace).reverse⟩

/-- The opaque agent handle: per the spec a "capability token proving that
validation succeeded", derived from the current Configuration.  It is
modelled as a record holding the organization name it was constructed from;
its fallible constructor is `AgentGenerator.make` below. -/
structure AgentGenerator where
  org_name : String
deriving DecidableEq, Repr

/-- The shared mutable state of agent.py.  The Python dictionary `state_data`
starts with the keys "org_name", "base_url" and "swagger_json" (all strings);
the key "agent" is added later by `create_agent`, hence an `Option` field.
The field `module` models the growing generated tool module (the file the
agent appends to), an ordered sequence of appended code fragments; in
agent.py it is reachable only through `agent.write_to_tool`. -/
structure AgentState where
  org_name : String
  base_url : String
  swagger_json : String
  agent : Option AgentGenerator
  module : List String
deriving DecidableEq, Repr

/-- The initial value of `state_data` in agent.py: the three configuration
fields are empty strings, no "agent" key is present, nothing was written. -/
def initialState : AgentState :=
  { org_name := "", base_url := "", swagger_json := "", agent := none, module := [] }

/-- Embedding of `set_org_name` (agent.py line 22): overwrite the field
unconditionally.  The `print` call in the source writes to the console only
and touches no state, so it has no counterpart here. -/
def set_org_name (s : AgentState) (org_name : String) : AgentState :=
  { s with org_name := org_name }

/-- Embedding of `set_base_url` (agent.py line 36): overwrite the field
unconditionally.  The `print` call touches no state. -/
def set_base_url (s : AgentState) (base_url : String) : AgentState :=
  { s with base_url := base_url }

/-- Embedding of `set_swagger_json` (agent.py line 50): overwrite the field
unconditionally.  The `print` call touches no state. -/
def set_swagger_json (s : AgentState) (swagger_json : String) : AgentState :=
  { s with swagger_json := swagger_json }

/-- Embedding of the boolean computed at agent.py lines 71-74:
`all(isinstance(state_data.get(key), str) and state_data[key].strip() != "" ...)`.
In this typed embedding the three fields are always strings, so the
`isinstance` conjunct is always true and only the strip test remains. -/
def stateIsValid (s : AgentState) : Bool :=
  (pyStrip s.org_name != "") && (pyStrip s.base_url != "") && (pyStrip s.swagger_json != "")

/-- Failure mode of `create_agent`: per the spec the operation "fails if
Configuration invalid", and the resulting blocked condition is retriable by
the caller around validate_state / create_agent. -/
inductive CreateAgentError where
  | invalidConfiguration : CreateAgentError
deriving DecidableEq, Repr

/-- Modelled from the spec: the constructor of the class `AgentGenerator`
(tools_generator/generator/agent_generator.py, not under src/) is the only
part of `create_agent` absent from the sources, so the failure mode the spec
assigns to `create_agent` — "fails if Configuration invalid" — lives here.
The constructor is invoked as `AgentGenerator(state_data["org_name"])` but,
like all of agent.py, has access to the module-level shared state; per the
spec it fails exactly when the current Configuration is invalid, and
otherwise yields the opaque handle (the "capability token proving that
validation succeeded") derived from the organization name. -/
def AgentGenerator.make (s : AgentState) : Except CreateAgentError AgentGenerator :=
  if stateIsValid s then Except.ok { org_name := s.org_name }
  else Except.error CreateAgentError.invalidConfiguration

/-- Embedding of `create_agent` (agent.py lines 85-96): construct an
`AgentGenerator` and store it under the "agent" key of the shared state.
When the constructor fails, the exception propagates and the assignment at
line 94 is never reached, so the state is untouched; on success the handle
is returned together with the updated state. -/
def create_agent (s : AgentState) : Except CreateAgentError (AgentGenerator × AgentState) :=
  match AgentGenerator.make s with
  | Except.error e => Except.error e
  | Except.ok ag => Except.ok (ag, { s with agent := some ag })

/-- Collaborator calls observable during a `validate_state` invocation, used
to state the temporal claims about who gets invoked.  The only call sites in
the body of `validate_state` (agent.py lines 76-79) are `create_agent()` and
the commented-out `agent.write_to_tool(res)`; the binding
`res = tool_generation_agent` is a pure name binding. -/
inductive AgentCall where
  | createAgent : AgentCall
  | writeToTool : String → AgentCall
deriving DecidableEq, Repr

/-- Embedding of `validate_state` (agent.py lines 63-81).  Returns the boolean
result, the state after the call, and the trace of collaborator calls made
during the call.  When the check succeeds the source calls `create_agent()`
(line 77) and binds `res = tool_generation_agent` (line 78); the write at
line 79 is commented out, so no write call occurs in any branch.  The call
at line 77 runs only under a true check, where the constructor provably
succeeds, so the error case of the match is discharged as unreachable. -/
def validate_state (s : AgentState) : Bool × AgentState × List AgentCall :=
  if h : stateIsValid s = true then
    match hm : create_agent s with
    | Except.ok (_agent, s') => (stateIsValid s, s', [AgentCall.createAgent])
    | Except.error _ =>
        absurd hm (by simp [create_agent, AgentGenerator.make, h])
  else
    (stateIsValid s, s, [])

/-- Failure mode of `write_code_to_tool`: the KeyError raised by
`state_data["agent"]` when no agent has been created yet — the missing-handle
error of the spec. -/
inductive WriteError where
  | missingHandle : WriteError
deriving DecidableEq, Repr

/-- Modelled from the spec: the method `write_to_tool` of `AgentGenerator` is
not under src/.  Per the spec (ToolModuleWriter.append) the fragment is
appended after all previously appended fragments, order preserved. -/
def AgentGenerator.write_to_tool (_ag : AgentGenerator) (code : String)
    (module : List String) : List String :=
  module ++ [code]

/-- Embedding of `write_code_to_tool` (agent.py lines 99-129):
`state_data["agent"].write_to_tool(code)`.  When the "agent" key is absent the
dictionary lookup raises KeyError (the missing-handle error); otherwise the
code is appended to the module of the bound agent. -/
def write_code_to_tool (s : AgentState) (code : String) : Except WriteError AgentState :=
  match s.agent with
  | none => Except.error WriteError.missingHandle
  | some ag => Except.ok { s with module := ag.write_to_tool code s.module }

end ToolsGenerator

namespace GcpServer

/-- Request body of POST /payments/initiate (server.py lines 46-60).  The
Python `amount` field is a float that the handlers only store and echo back,
never computing with it, so its carrier is modelled as an opaque integer. -/
structure PaymentInitiationRequest where
  debtor_account : String
  creditor_account : String
  amount : Int
  currency : String
  reference : Option String
deriving DecidableEq, Repr

/-- Response body of POST /payments/initiate (server.py lines 62-72). -/
structure PaymentInitiationResponse where
  payment_id : String
  status : String
  created_at : String
deriving DecidableEq, Repr

/-- Response body of GET /payments/\x7bpayment_id\x7d/status
(server.py lines 74-90). -/
structure PaymentStatusResponse where
  payment_id : String
  status : String
  processed_at : Option String
  amount : Int
  currency : String
  reference : Option String
deriving DecidableEq, Repr

/-- A value of the `payments_store` dictionary (server.py lines 136-142). -/
structure PaymentRecord where
  status : String
  amount : Int
  currency : String
  reference : Option String
  created_at : String
deriving DecidableEq, Repr

/-- The in-memory `payments_store` dictionary (server.py line 121), modelled
as an association list from payment id to record. -/
abbrev PaymentsStore := List (String × PaymentRecord)

/-- Dictionary lookup `payments_store.get(payment_id)`. -/
def storeGet (store : PaymentsStore) (key : String) : Option PaymentRecord :=
  match store with
  | [] => none
  | (k, v) :: rest => if k = key then some v else storeGet rest key

/-- Dictionary assignment `payments_store[payment_id] = record`: overwrite
the binding when the key is present, append it otherwise. -/
def storeSet (store : PaymentsStore) (key : String) (record : PaymentRecord) : PaymentsStore :=
  match store with
  | [] => [(key, record)]
  | (k, v) :: rest =>
      if k = key then (k, record) :: rest else (k, v) :: storeSet rest key record

/-- Embedding of `initiate_payment` (server.py lines 124-147).  The two
nondeterministic inputs of the handler — `str(uuid4())` and
`datetime.utcnow().isoformat()` — are passed as the explicit parameters
`payment_id` and `now`.  The handler stores a PENDING record under the fresh
id and answers with the id, the PENDING status and the stored timestamp. -/
def initiate_payment (payment_id now : String) (request : PaymentInitiationRequest)
    (store : PaymentsStore) : PaymentInitiationResponse × PaymentsStore :=
  let record : PaymentRecord :=
    { status := "PENDING"
      amount := request.amount
      currency := request.currency
      reference := request.reference
      created_at := now }
  let store' := storeSet store payment_id record
  ({ payment_id := payment_id, status := "PENDING", created_at := record.created_at }, store')

/-- Embedding of `get_payment_status` (server.py lines 149-172).  The
parameter `now` stands for the `datetime.utcnow().isoformat()` evaluated in
the handler body.  On an unknown id the handler raises HTTPException with
status code 404; the store is returned unchanged in both branches, as the
handler only reads it.  A stored record is a non-empty Python dictionary,
hence truthy, so `if not payment` fires exactly when `get` returned None. -/
def get_payment_status (now : String) (payment_id : String) (store : PaymentsStore) :
    Except Nat PaymentStatusResponse × PaymentsStore :=
  match storeGet store payment_id with
  | none => (Except.error 404, store)
  | some payment =>
      (Except.ok
        { payment_id := payment_id
          status := payment.status
          processed_at := if payment.status = "COMPLETED" then some now else none
          amount := payment.amount
          currency := payment.currency
          reference := payment.reference }, store)

end GcpServer

namespace ToolsGenerator

/-- Dropping a whitespace prefix does not change whether every character of a
list is whitespace. -/
theorem forall_dropWhile_iff (w : Char → Bool) (l : List Char) :
    (∀ c ∈ l.dropWhile w, w c = true) ↔ (∀ c ∈ l, w c = true) := by
  induction l with
  | nil => simp
  | cons a l ih =>
    by_cases h : w a = true
    · simp [List.dropWhile, h, ih]
    · simp [List.dropWhile, h]

/-- Stripping yields the empty string exactly when every character of the
string is whitespace (in particular when the string is empty). -/
theorem pyStrip_eq_empty_iff (s : String) :
    pyStrip s = "" ↔ ∀ c ∈ s.data, isPyWhitespace c = true := by
  have hdata : ("" : String).data = [] := rfl
  rw [pyStrip, String.ext_iff, hdata]
  simp only [List.reverse_eq_nil_iff, List.dropWhile_eq_nil_iff, List.mem_reverse]
  exact forall_dropWhile_iff isPyWhitespace s.data

/-- Updating the agent field does not change the validity check, which reads
only the three configuration fields. -/
theorem stateIsValid_set_agent (s : AgentState) (a : Option AgentGenerator) :
    stateIsValid { s with agent := a } = stateIsValid s := rfl

/-- On a valid configuration the modelled constructor, hence `create_agent`,
succeeds, returning the handle built from the current org_name and binding
it in the shared state. -/
theorem create_agent_of_valid (s : AgentState) (h : stateIsValid s = true) :
    create_agent s =
      Except.ok ({ org_name := s.org_name },
        { s with agent := some { org_name := s.org_name } }) := by
  simp [create_agent, AgentGenerator.make, h]

/-- On an invalid configuration `create_agent` fails with the
invalid-configuration error. -/
theorem create_agent_of_invalid (s : AgentState) (h : stateIsValid s = false) :
    create_agent s = Except.error CreateAgentError.invalidConfiguration := by
  simp [create_agent, AgentGenerator.make, h]

/-- Full evaluation of `validate_state` on a valid configuration. -/
theorem validate_state_eq_of_valid (s : AgentState) (h : stateIsValid s = true) :
    validate_state s =
      (true, { s with agent := some { org_name := s.org_name } },
       [AgentCall.createAgent]) := by
  unfold validate_state
  rw [dif_pos h]
  split
  next _ag s' hm =>
    rw [create_agent_of_valid s h] at hm
    injection hm with hpair
    injection hpair with h1 h2
    subst h2
    rw [h]
  next e hm =>
    rw [create_agent_of_valid s h] at hm
    exact Except.noConfusion hm

/-- Full evaluation of `validate_state` on an invalid configuration. -/
theorem validate_state_eq_of_invalid (s : AgentState) (h : stateIsValid s = false) :
    validate_state s = (false, s, []) := by
  unfold validate_state
  rw [dif_neg (by simp [h]), h]

/-- Characterization of the state after a `validate_state` call: the three
configuration fields and the module are always left unchanged; the agent
field is rebound (to the handle built from the current org_name) exactly when
the check succeeds. -/
theorem validate_state_state_eq (s : AgentState) :
    (validate_state s).2.1 =
      if stateIsValid s then { s with agent := some { org_name := s.org_name } } else s := by
  by_cases h : stateIsValid s = true
  · rw [validate_state_eq_of_valid s h, if_pos h]
  · have hb : stateIsValid s = false := by simpa using h
    rw [validate_state_eq_of_invalid s hb, if_neg h]

/-- The boolean returned by `validate_state` is the validity check. -/
theorem validate_state_fst (s : AgentState) :
    (validate_state s).1 = stateIsValid s := by
  by_cases h : stateIsValid s = true
  · rw [validate_state_eq_of_valid s h, h]
  · have hb : stateIsValid s = false := by simpa using h
    rw [validate_state_eq_of_invalid s hb, hb]

/-- The call trace of `validate_state`: a single `create_agent` call when the
check succeeds, no call at all otherwise; in particular no write call ever. -/
theorem validate_state_trace_eq (s : AgentState) :
    (validate_state s).2.2 =
      if stateIsValid s then [AgentCall.createAgent] else [] := by
  by_cases h : stateIsValid s = true
  · rw [validate_state_eq_of_valid s h, if_pos h]
  · have hb : stateIsValid s = false := by simpa using h
    rw [validate_state_eq_of_invalid s hb, if_neg h]

end ToolsGenerator

namespace GcpServer

/-- Looking up the key just written returns the record just written. -/
theorem storeGet_storeSet_self (store : PaymentsStore) (key : String)
    (record : PaymentRecord) : storeGet (storeSet store key record) key = some record := by
  induction store with
  | nil => simp [storeSet, storeGet]
  | cons kv rest ih =>
    by_cases h : kv.1 = key
    · simp [storeSet, storeGet, h]
    · simp [storeSet, storeGet, h, ih]

end GcpServer

namespace ToolsGenerator

/-- A configuration state whose three fields are non-empty: validation
succeeds on it. -/
def sampleValid : AgentState :=
  { org_name := "a", base_url := "b", swagger_json := "c", agent := none, module := [] }

/-- A configuration state with a non-empty org_name but empty base_url and
swagger_json: validation fails on it. -/
def sampleInvalid : AgentState :=
  { org_name := "x", base_url := "", swagger_json := "", agent := none, module := [] }

/-- The state of end-to-end scenario 2 of the spec: org_name and base_url
set, swagger_json left empty. -/
def scenario2State : AgentState :=
  { org_name := "Acme", base_url := "https://api.acme.com", swagger_json := ""
    agent := none, module := [] }

/-- C1: the boolean returned by `validate_state` is true exactly when each of
the three fields org_name, base_url and swagger_json is non-empty after
stripping leading and trailing whitespace; equivalently, it is false exactly
when some field is empty or consists only of whitespace characters. -/
theorem c1_validate_state_result (s : AgentState) :
    ((validate_state s).1 = true ↔
      (pyStrip s.org_name ≠ "" ∧ pyStrip s.base_url ≠ "" ∧ pyStrip s.swagger_json ≠ "")) ∧
    ((validate_state s).1 = false ↔
      ((∀ c ∈ s.org_name.data, isPyWhitespace c = true) ∨
       (∀ c ∈ s.base_url.data, isPyWhitespace c = true) ∨
       (∀ c ∈ s.swagger_json.data, isPyWhitespace c = true))) := by
  rw [validate_state_fst]
  constructor
  · simp [stateIsValid]
    tauto
  · rw [← pyStrip_eq_empty_iff, ← pyStrip_eq_empty_iff, ← pyStrip_eq_empty_iff]
    rw [show (stateIsValid s = false) ↔ ¬ (stateIsValid s = true) by simp]
    simp only [stateIsValid, Bool.and_eq_true, bne_iff_ne, ne_eq, not_and_or, not_not]
    tauto

/-- C2 counterexample: on a valid configuration with no agent bound,
`validate_state` does mutate the shared state (it binds the agent handle),
so the call is not free of side effects on the shared state. -/
theorem c2_validate_state_mutates :
    (validate_state sampleValid).2.1 ≠ sampleValid := by decide

/-- C2 amended: `validate_state` never changes the three configuration
fields nor the module; when the check fails the shared state is exactly as
before, and when it succeeds the only change is binding the agent handle
produced by `create_agent`. -/
theorem c2_validate_state_frame (s : AgentState) :
    ((validate_state s).2.1).org_name = s.org_name ∧
    ((validate_state s).2.1).base_url = s.base_url ∧
    ((validate_state s).2.1).swagger_json = s.swagger_json ∧
    ((validate_state s).2.1).module = s.module ∧
    (validate_state s).2.1 =
      (if stateIsValid s then { s with agent := some { org_name := s.org_name } } else s) := by
  rw [validate_state_state_eq]
  by_cases h : stateIsValid s = true <;> simp [h]

/-- C3: calling `write_code_to_tool` while no agent handle is bound in the
shared state fails with the missing-handle error, for every input string;
the error is returned, never swallowed into a success. -/
theorem c3_write_without_handle_fails (s : AgentState) (code : String)
    (h : s.agent = none) :
    write_code_to_tool s code = Except.error WriteError.missingHandle := by
  simp [write_code_to_tool, h]

/-- C3 witness: on the initial state (no agent bound) with the empty input
string, the write fails with the missing-handle error. -/
theorem c3_write_without_handle_fails_witness :
    initialState.agent = none ∧
    write_code_to_tool initialState "" = Except.error WriteError.missingHandle :=
  ⟨rfl, c3_write_without_handle_fails initialState "" rfl⟩

/-- C4: on every configuration state in which the Configuration is invalid
(some field empty after trimming), `create_agent` fails with the
invalid-configuration error; it does not produce an agent handle and the
shared state is not updated. -/
theorem c4_create_agent_fails_on_invalid (s : AgentState)
    (h : stateIsValid s = false) :
    create_agent s = Except.error CreateAgentError.invalidConfiguration :=
  create_agent_of_invalid s h

/-- C4 witness: on the concrete invalid configuration (org_name set, base_url
and swagger_json empty) `create_agent` fails with the invalid-configuration
error. -/
theorem c4_create_agent_fails_on_invalid_witness :
    stateIsValid sampleInvalid = false ∧
    create_agent sampleInvalid = Except.error CreateAgentError.invalidConfiguration :=
  ⟨by decide, c4_create_agent_fails_on_invalid sampleInvalid (by decide)⟩

/-- C5: when `validate_state` returns false, no collaborator call is made
during the validate call (in particular `create_agent` is not called) and the
shared state — agent binding and generated module included — is exactly as
before. -/
theorem c5_invalid_validation_no_calls (s : AgentState)
    (h : (validate_state s).1 = false) :
    (validate_state s).2.2 = [] ∧ (validate_state s).2.1 = s := by
  rw [validate_state_fst] at h
  rw [validate_state_trace_eq, validate_state_state_eq]
  simp [h]

/-- C5 witness: end-to-end scenario 2 — org_name and base_url set,
swagger_json empty — validation returns false, makes no call and leaves the
state unchanged. -/
theorem c5_invalid_validation_no_calls_witness :
    (validate_state scenario2State).1 = false ∧
    (validate_state scenario2State).2.2 = [] ∧
    (validate_state scenario2State).2.1 = scenario2State :=
  ⟨by decide, (c5_invalid_validation_no_calls scenario2State (by decide)).1,
   (c5_invalid_validation_no_calls scenario2State (by decide)).2⟩

/-- C6: on a valid configuration, validating a second time with the
configuration unchanged leaves the generated module exactly as after the
first validation (no fragment is appended by either call), and in fact the
whole state after the second call equals the state after the first. -/
theorem c6_revalidation_idempotent (s : AgentState) (h : stateIsValid s = true) :
    ((validate_state ((validate_state s).2.1)).2.1).module = ((validate_state s).2.1).module ∧
    ((validate_state s).2.1).module = s.module ∧
    (validate_state ((validate_state s).2.1)).2.1 = (validate_state s).2.1 := by
  have h1 : (validate_state s).2.1 = { s with agent := some { org_name := s.org_name } } := by
    rw [validate_state_state_eq]; simp [h]
  have h2 : (validate_state ((validate_state s).2.1)).2.1 = (validate_state s).2.1 := by
    rw [h1, validate_state_state_eq]
    simp [stateIsValid_set_agent, h]
  exact ⟨by rw [h2], by rw [h1], h2⟩

/-- C6 witness: on a concrete valid configuration the second validation
changes nothing relative to the first. -/
theorem c6_revalidation_idempotent_witness :
    stateIsValid sampleValid = true ∧
    (validate_state ((validate_state sampleValid).2.1)).2.1 = (validate_state sampleValid).2.1 :=
  ⟨by decide, (c6_revalidation_idempotent sampleValid (by decide)).2.2⟩

/-- C9: each setter overwrites exactly its own configuration field with the
given value — any string, the empty string included — leaving every other
part of the state untouched, and repeated calls are last-write-wins. -/
theorem c9_setters_overwrite (s : AgentState) (v v1 v2 : String) :
    set_org_name s v = { s with org_name := v } ∧
    set_base_url s v = { s with base_url := v } ∧
    set_swagger_json s v = { s with swagger_json := v } ∧
    set_org_name (set_org_name s v1) v2 = set_org_name s v2 ∧
    set_base_url (set_base_url s v1) v2 = set_base_url s v2 ∧
    set_swagger_json (set_swagger_json s v1) v2 = set_swagger_json s v2 :=
  ⟨rfl, rfl, rfl, rfl, rfl, rfl⟩

/-- C10: whenever `validate_state` returns true, the state immediately after
the call has the agent handle bound, and a subsequent `write_code_to_tool`
with any code succeeds (appending the code to the module) instead of failing
with the missing-handle error. -/
theorem c10_valid_validation_binds_handle (s : AgentState)
    (h : (validate_state s).1 = true) :
    ((validate_state s).2.1).agent = some { org_name := s.org_name } ∧
    ∀ code, write_code_to_tool ((validate_state s).2.1) code =
      Except.ok { ((validate_state s).2.1) with
                  module := (((validate_state s).2.1)).module ++ [code] } := by
  rw [validate_state_fst] at h
  have h1 : (validate_state s).2.1 = { s with agent := some { org_name := s.org_name } } := by
    rw [validate_state_state_eq]; simp [h]
  rw [h1]
  exact ⟨rfl, fun code => rfl⟩

/-- C10 witness: on a concrete valid configuration, validation binds the
handle and a following write succeeds. -/
theorem c10_valid_validation_binds_handle_witness :
    (validate_state sampleValid).1 = true ∧
    ((validate_state sampleValid).2.1).agent = some { org_name := "a" } ∧
    write_code_to_tool ((validate_state sampleValid).2.1) "code" =
      Except.ok { ((validate_state sampleValid).2.1) with
                  module := (((validate_state sampleValid).2.1)).module ++ ["code"] } :=
  ⟨by decide, (c10_valid_validation_binds_handle sampleValid (by decide)).1,
   (c10_valid_validation_binds_handle sampleValid (by decide)).2 "code"⟩

end ToolsGenerator

namespace GcpServer

/-- A concrete payment-initiation request: amount 100, currency USD, as in
end-to-end scenario 3 of the spec. -/
def sampleRequest : PaymentInitiationRequest :=
  { debtor_account := "acc-1", creditor_account := "acc-2", amount := 100,
    currency := "USD", reference := none }

/-- C7: initiating a payment under a fresh id answers with status PENDING,
that id and the creation timestamp, stores a PENDING record under the id,
and a subsequent status query for the id answers PENDING with processed_at
equal to null. -/
theorem c7_initiate_then_status (payment_id now nowq : String)
    (request : PaymentInitiationRequest) (store : PaymentsStore)
    (_fresh : storeGet store payment_id = none) :
    (initiate_payment payment_id now request store).1 =
      { payment_id := payment_id, status := "PENDING", created_at := now } ∧
    storeGet (initiate_payment payment_id now request store).2 payment_id =
      some { status := "PENDING", amount := request.amount, currency := request.currency,
             reference := request.reference, created_at := now } ∧
    get_payment_status nowq payment_id (initiate_payment payment_id now request store).2 =
      (Except.ok { payment_id := payment_id, status := "PENDING", processed_at := none,
                   amount := request.amount, currency := request.currency,
                   reference := request.reference },
       (initiate_payment payment_id now request store).2) := by
  refine ⟨rfl, ?_, ?_⟩
  · simp [initiate_payment, storeGet_storeSet_self]
  · simp [get_payment_status, initiate_payment, storeGet_storeSet_self]

/-- C7 witness: on the empty store, initiating a payment of 100 USD under a
concrete fresh id yields a PENDING response and the status query for that id
answers PENDING with processed_at null. -/
theorem c7_initiate_then_status_witness :
    storeGet [] "pid-1" = none ∧
    (initiate_payment "pid-1" "t0" sampleRequest []).1 =
      { payment_id := "pid-1", status := "PENDING", created_at := "t0" } ∧
    get_payment_status "t1" "pid-1" (initiate_payment "pid-1" "t0" sampleRequest []).2 =
      (Except.ok { payment_id := "pid-1", status := "PENDING", processed_at := none,
                   amount := 100, currency := "USD", reference := none },
       (initiate_payment "pid-1" "t0" sampleRequest []).2) :=
  ⟨rfl, (c7_initiate_then_status "pid-1" "t0" "t1" sampleRequest [] rfl).1,
   (c7_initiate_then_status "pid-1" "t0" "t1" sampleRequest [] rfl).2.2⟩

/-- C8: querying the status of a payment id that is not in the store fails
with the 404 error and returns the store unchanged. -/
theorem c8_unknown_payment_404 (payment_id nowq : String) (store : PaymentsStore)
    (h : storeGet store payment_id = none) :
    get_payment_status nowq payment_id store = (Except.error 404, store) := by
  simp [get_payment_status, h]

/-- C8 witness: on the empty store, querying a missing payment id fails with
404 and leaves the store (still empty) unchanged. -/
theorem c8_unknown_payment_404_witness :
    storeGet [] "missing" = none ∧
    get_payment_status "t2" "missing" [] = (Except.error 404, []) :=
  ⟨rfl, c8_unknown_payment_404 "missing" "t2" [] rfl⟩

end GcpServer
